import Mathlib

/-!
Shallow embedding of the NGS Reimbursement Intelligence platform
(`ngs_reimbursement_app_errorfree.py`): the risk-scoring and
financial-projection engine.  Python floats are modelled as exact
rationals (every constant in the source is a short decimal), Python
ints as `Int`, `dict.get(key, default)` as association-list lookup
with a default, `np.inf` as a dedicated sentinel constructor, and the
Monte Carlo trial as a function of the raw pseudo-random draws.
-/

namespace NGS

/-- `dict.get(key, default)` on a Python dict literal, modelled as lookup in
an association list (the source dicts have no duplicate keys). -/
def dictGet : List (String × ℚ) → String → ℚ → ℚ
  | [], _, d => d
  | (k, v) :: rest, s, d => if s = k then v else dictGet rest s d

/-- `backbone_risk = {"Panel": 0.8, "Exome": 1.0, "Genome": 1.2}` (line 70). -/
def backbone_risk : List (String × ℚ) :=
  [("Panel", 0.8), ("Exome", 1.0), ("Genome", 1.2)]

/-- `positioning_risk = {"First-line": 1.1, "Reflex": 0.9, "Confirmatory": 0.7}` (line 71). -/
def positioning_risk : List (String × ℚ) :=
  [("First-line", 1.1), ("Reflex", 0.9), ("Confirmatory", 0.7)]

/-- `region_risk` table (line 72). -/
def region_risk : List (String × ℚ) :=
  [("National", 1.0), ("Northeast", 0.9), ("South", 1.2), ("Midwest", 1.0), ("West", 1.1)]

/-- `reporting_risk = {"Full Report": 1.0, "Carve-out Panels": 0.9}` (line 73). -/
def reporting_risk : List (String × ℚ) :=
  [("Full Report", 1.0), ("Carve-out Panels", 0.9)]

/-- `specialty_risk` table (line 74). -/
def specialty_risk : List (String × ℚ) :=
  [("Oncology", 0.8), ("Cardiology", 1.0), ("Neurology", 1.1),
   ("Rare Disease", 1.3), ("Prenatal", 0.9)]

/-- `volume_risk = max(0.7, 1.2 - (volume / 5000))` (line 77). -/
def volume_risk (volume : ℤ) : ℚ := max 0.7 (1.2 - (volume : ℚ) / 5000)

/-- `base_score` (lines 79–84): product of the five `dict.get(_, 1.0)`
lookups and the volume factor. -/
def base_score (backbone positioning region reporting specialty : String)
    (volume : ℤ) : ℚ :=
  dictGet backbone_risk backbone 1.0 *
  dictGet positioning_risk positioning 1.0 *
  dictGet region_risk region 1.0 *
  dictGet reporting_risk reporting 1.0 *
  dictGet specialty_risk specialty 1.0 *
  volume_risk volume

/-- The record returned by `calculate_comprehensive_risk`:
`{'overall': base_score, 'Prior Authorization Risk': …, 'Denial Risk': …,
'Appeal Success Rate': …, 'Time to Payment Risk': …}`. -/
structure RiskMetrics where
  overall : ℚ
  priorAuthRisk : ℚ
  denialRisk : ℚ
  appealSuccessRate : ℚ
  timeToPaymentRisk : ℚ
  deriving Repr, DecidableEq

/-- `calculate_comprehensive_risk` (lines 65–94). -/
def calculate_comprehensive_risk (backbone positioning region reporting specialty : String)
    (volume : ℤ) : RiskMetrics :=
  let s := base_score backbone positioning region reporting specialty volume
  { overall := s
    priorAuthRisk := min (s * 0.8) 1.0
    denialRisk := min (s * 0.6) 1.0
    appealSuccessRate := max 0.3 (1.0 - s * 0.4)
    timeToPaymentRisk := min (s * 0.7) 1.0 }

/-- The record returned by `calculate_enhanced_financials` (lines 113–124). -/
structure FinancialMetrics where
  gross_profit : ℚ
  net_profit : ℚ
  effective_reimbursement : ℚ
  annual_gross_revenue : ℚ
  annual_net_revenue : ℚ
  annual_costs : ℚ
  annual_net_profit : ℚ
  roi : ℚ
  margin : ℚ
  denial_impact : ℚ
  deriving Repr, DecidableEq

/-- `calculate_enhanced_financials` (lines 97–124). -/
def calculate_enhanced_financials (cost_per_sample reimbursement : ℚ)
    (volume : ℤ) (denial_rate : ℚ) : FinancialMetrics :=
  let gross_profit := reimbursement - cost_per_sample
  let effective_reimbursement := reimbursement * (1 - denial_rate)
  let net_profit := effective_reimbursement - cost_per_sample
  { gross_profit := gross_profit
    net_profit := net_profit
    effective_reimbursement := effective_reimbursement
    annual_gross_revenue := reimbursement * volume
    annual_net_revenue := effective_reimbursement * volume
    annual_costs := cost_per_sample * volume
    annual_net_profit := net_profit * volume
    roi := if cost_per_sample > 0 then net_profit / cost_per_sample * 100 else 0
    margin := if effective_reimbursement > 0 then net_profit / effective_reimbursement * 100 else 0
    denial_impact := (gross_profit - net_profit) * volume }

/-- `base_denial_rate = risk_metrics['overall'] * 0.15` (line 257). -/
def base_denial_rate (backbone positioning region reporting specialty : String)
    (volume : ℤ) : ℚ :=
  (calculate_comprehensive_risk backbone positioning region reporting specialty volume).overall
    * 0.15

/-- `adjusted_denial_rate = base_denial_rate * (1 - prior_auth_rate * 0.4)` (line 258). -/
def adjusted_denial_rate (backbone positioning region reporting specialty : String)
    (volume : ℤ) (prior_auth_rate : ℚ) : ℚ :=
  base_denial_rate backbone positioning region reporting specialty volume
    * (1 - prior_auth_rate * 0.4)

/-- `total_loss_rate = adjusted_denial_rate + bad_debt_rate` (line 259). -/
def total_loss_rate (backbone positioning region reporting specialty : String)
    (volume : ℤ) (prior_auth_rate bad_debt_rate : ℚ) : ℚ :=
  adjusted_denial_rate backbone positioning region reporting specialty volume prior_auth_rate
    + bad_debt_rate

/-- A Python float that may be `np.inf`, as produced by the break-even
computation on line 460. -/
inductive BEVolume where
  | val (q : ℚ)
  | inf
  deriving Repr, DecidableEq

/-- `breakeven_volume = financials['annual_costs'] / financials['net_profit']
if financials['net_profit'] > 0 else np.inf` (line 460). -/
def breakeven_volume (fin : FinancialMetrics) : BEVolume :=
  if fin.net_profit > 0 then .val (fin.annual_costs / fin.net_profit) else .inf

/-- The display branch on lines 462–465: `breakeven_volume != np.inf` selects
the success message, otherwise the "Current pricing does not support
profitability" error. -/
def breakeven_profitable_flag (fin : FinancialMetrics) : Bool :=
  breakeven_volume fin ≠ BEVolume.inf

/-- `'breakeven_volume': financials['annual_costs'] / financials['net_profit']
if financials['net_profit'] > 0 else None` — the JSON report field (line 708). -/
def report_breakeven (fin : FinancialMetrics) : Option ℚ :=
  if fin.net_profit > 0 then some (fin.annual_costs / fin.net_profit) else none

/-- The recognized backbone keys, as used by the UI selectbox. -/
def backboneKeys : List String := backbone_risk.map Prod.fst

/-- The recognized positioning keys. -/
def positioningKeys : List String := positioning_risk.map Prod.fst

/-- The recognized region keys. -/
def regionKeys : List String := region_risk.map Prod.fst

/-- The recognized reporting-strategy keys. -/
def reportingKeys : List String := reporting_risk.map Prod.fst

/-- The recognized specialty keys. -/
def specialtyKeys : List String := specialty_risk.map Prod.fst

/-- Modelled from the spec: the Panel/CPT Classifier of spec section 4.1 has no
implementation under src/ (the source file contains no CPT-code or gene-count
logic), so its codes are modelled as abstract complexity tiers: the fixed
ctDNA code, and the high/mid/low-complexity ladder codes. -/
inductive CPTCode where
  | ctDNA
  | highComplexity
  | midComplexity
  | lowComplexity
  deriving Repr, DecidableEq

/-- Modelled from the spec: the gene-count threshold ladder of section 4.1
step 2, absent from src/: count greater than 50 selects the high-complexity
code, count in (5, 50] the mid-complexity code, count at most 5 the
low-complexity code. -/
def cpt_ladder (count : ℕ) : CPTCode :=
  if count > 50 then .highComplexity
  else if count > 5 then .midComplexity
  else .lowComplexity

/-- Modelled from the spec: classifier steps 1–3 of section 4.1, absent from
src/: a "Liquid Biopsy" panel gets the fixed ctDNA code regardless of gene
count; every other category uses the ladder; "Germline" re-applies the ladder
unconditionally and is checked after the other rules, so it always classifies
by the ladder (section 9 precedence note). -/
def classify_cpt (category : String) (count : ℕ) : CPTCode :=
  if category = "Germline" then cpt_ladder count
  else if category = "Liquid Biopsy" then .ctDNA
  else cpt_ladder count

/-! ## Helper lemmas -/

/-- A `dict.get` lookup with default inside the interval stays inside any
interval that contains all table values. -/
theorem dictGet_bounds {lo hi : ℚ} (tbl : List (String × ℚ)) (s : String) (d : ℚ)
    (hd1 : lo ≤ d) (hd2 : d ≤ hi) (h : ∀ q ∈ tbl, lo ≤ q.2 ∧ q.2 ≤ hi) :
    lo ≤ dictGet tbl s d ∧ dictGet tbl s d ≤ hi := by
  induction tbl with
  | nil => exact ⟨hd1, hd2⟩
  | cons hd tl ih =>
    obtain ⟨k, v⟩ := hd
    by_cases hs : s = k
    · simp only [dictGet, if_pos hs]
      exact h (k, v) (List.mem_cons_self _ _)
    · simp only [dictGet, if_neg hs]
      exact ih fun q hq => h q (List.mem_cons_of_mem _ hq)

/-- A `dict.get` on a key absent from the table returns the default. -/
theorem dictGet_not_mem (tbl : List (String × ℚ)) (s : String) (d : ℚ)
    (h : s ∉ tbl.map Prod.fst) : dictGet tbl s d = d := by
  induction tbl with
  | nil => rfl
  | cons hd tl ih =>
    obtain ⟨k, v⟩ := hd
    simp only [List.map_cons, List.mem_cons] at h
    push_neg at h
    simp only [dictGet, if_neg h.1]
    exact ih h.2

/-- Every backbone multiplier lies in [0.8, 1.2] (table values and the 1.0
default). -/
theorem backbone_mult_bounds (s : String) :
    0.8 ≤ dictGet backbone_risk s 1.0 ∧ dictGet backbone_risk s 1.0 ≤ 1.2 := by
  refine dictGet_bounds _ _ _ (by norm_num) (by norm_num) ?_
  intro q hq
  simp only [backbone_risk, List.mem_cons, List.not_mem_nil, or_false] at hq
  rcases hq with rfl | rfl | rfl <;> norm_num

/-- Every positioning multiplier lies in [0.7, 1.1]. -/
theorem positioning_mult_bounds (s : String) :
    0.7 ≤ dictGet positioning_risk s 1.0 ∧ dictGet positioning_risk s 1.0 ≤ 1.1 := by
  refine dictGet_bounds _ _ _ (by norm_num) (by norm_num) ?_
  intro q hq
  simp only [positioning_risk, List.mem_cons, List.not_mem_nil, or_false] at hq
  rcases hq with rfl | rfl | rfl <;> norm_num

/-- Every region multiplier lies in [0.9, 1.2]. -/
theorem region_mult_bounds (s : String) :
    0.9 ≤ dictGet region_risk s 1.0 ∧ dictGet region_risk s 1.0 ≤ 1.2 := by
  refine dictGet_bounds _ _ _ (by norm_num) (by norm_num) ?_
  intro q hq
  simp only [region_risk, List.mem_cons, List.not_mem_nil, or_false] at hq
  rcases hq with rfl | rfl | rfl | rfl | rfl <;> norm_num

/-- Every reporting multiplier lies in [0.9, 1.0]. -/
theorem reporting_mult_bounds (s : String) :
    0.9 ≤ dictGet reporting_risk s 1.0 ∧ dictGet reporting_risk s 1.0 ≤ 1.0 := by
  refine dictGet_bounds _ _ _ (by norm_num) (by norm_num) ?_
  intro q hq
  simp only [reporting_risk, List.mem_cons, List.not_mem_nil, or_false] at hq
  rcases hq with rfl | rfl <;> norm_num

/-- Every specialty multiplier lies in [0.8, 1.3]. -/
theorem specialty_mult_bounds (s : String) :
    0.8 ≤ dictGet specialty_risk s 1.0 ∧ dictGet specialty_risk s 1.0 ≤ 1.3 := by
  refine dictGet_bounds _ _ _ (by norm_num) (by norm_num) ?_
  intro q hq
  simp only [specialty_risk, List.mem_cons, List.not_mem_nil, or_false] at hq
  rcases hq with rfl | rfl | rfl | rfl | rfl <;> norm_num

/-- The volume factor is floored at 0.7. -/
theorem volume_risk_lb (v : ℤ) : 0.7 ≤ volume_risk v := le_max_left _ _

/-- For non-negative volume the volume factor is at most 1.2. -/
theorem volume_risk_ub (v : ℤ) (hv : 0 ≤ v) : volume_risk v ≤ 1.2 := by
  unfold volume_risk
  refine max_le (by norm_num) ?_
  have h0 : (0 : ℚ) ≤ (v : ℚ) := by exact_mod_cast hv
  have h1 : (0 : ℚ) ≤ (v : ℚ) / 5000 := by positivity
  linarith

/-- The overall risk score is strictly positive for every input. -/
theorem base_score_pos (b p r rep sp : String) (v : ℤ) :
    0 < base_score b p r rep sp v := by
  have hA : 0 < dictGet backbone_risk b 1.0 :=
    lt_of_lt_of_le (by norm_num) (backbone_mult_bounds b).1
  have hB : 0 < dictGet positioning_risk p 1.0 :=
    lt_of_lt_of_le (by norm_num) (positioning_mult_bounds p).1
  have hC : 0 < dictGet region_risk r 1.0 :=
    lt_of_lt_of_le (by norm_num) (region_mult_bounds r).1
  have hD : 0 < dictGet reporting_risk rep 1.0 :=
    lt_of_lt_of_le (by norm_num) (reporting_mult_bounds rep).1
  have hE : 0 < dictGet specialty_risk sp 1.0 :=
    lt_of_lt_of_le (by norm_num) (specialty_mult_bounds sp).1
  have hF : 0 < volume_risk v := lt_of_lt_of_le (by norm_num) (volume_risk_lb v)
  exact mul_pos (mul_pos (mul_pos (mul_pos (mul_pos hA hB) hC) hD) hE) hF

/-- Interval bounds multiply across a product of two non-negative factors. -/
theorem mul_bounds {x y la ha lb hb : ℚ} (hla : 0 ≤ la) (hlb : 0 ≤ lb)
    (h1 : la ≤ x) (h2 : x ≤ ha) (h3 : lb ≤ y) (h4 : y ≤ hb) :
    la * lb ≤ x * y ∧ x * y ≤ ha * hb :=
  ⟨mul_le_mul h1 h3 hlb (hla.trans h1),
   mul_le_mul h2 h4 (hlb.trans h3) ((hla.trans h1).trans h2)⟩

/-- C1: `calculate_enhanced_financials` satisfies, for every cost per sample,
reimbursement, volume and total loss rate, the eight derivation equations of
the spec contract, and at costPerSample=728, reimbursement=1000, volume=1000,
totalLossRate=0.15 it returns effectiveReimbursement=850, netProfit=122,
annualNetProfit=122000 and roi=(122/728)×100. -/
theorem computeFinancials_contract :
    (∀ (cost reimb : ℚ) (volume : ℤ) (loss : ℚ),
      (calculate_enhanced_financials cost reimb volume loss).gross_profit = reimb - cost ∧
      (calculate_enhanced_financials cost reimb volume loss).effective_reimbursement
        = reimb * (1 - loss) ∧
      (calculate_enhanced_financials cost reimb volume loss).net_profit
        = (calculate_enhanced_financials cost reimb volume loss).effective_reimbursement
            - cost ∧
      (calculate_enhanced_financials cost reimb volume loss).annual_gross_revenue
        = reimb * volume ∧
      (calculate_enhanced_financials cost reimb volume loss).annual_net_revenue
        = (calculate_enhanced_financials cost reimb volume loss).effective_reimbursement
            * volume ∧
      (calculate_enhanced_financials cost reimb volume loss).annual_costs
        = cost * volume ∧
      (calculate_enhanced_financials cost reimb volume loss).annual_net_profit
        = (calculate_enhanced_financials cost reimb volume loss).net_profit * volume ∧
      (calculate_enhanced_financials cost reimb volume loss).denial_impact
        = ((calculate_enhanced_financials cost reimb volume loss).gross_profit
            - (calculate_enhanced_financials cost reimb volume loss).net_profit) * volume) ∧
    (calculate_enhanced_financials 728 1000 1000 0.15).effective_reimbursement = 850 ∧
    (calculate_enhanced_financials 728 1000 1000 0.15).net_profit = 122 ∧
    (calculate_enhanced_financials 728 1000 1000 0.15).annual_net_profit = 122000 ∧
    (calculate_enhanced_financials 728 1000 1000 0.15).roi = 122 / 728 * 100 := by
  refine ⟨fun cost reimb volume loss => ⟨rfl, rfl, rfl, rfl, rfl, rfl, rfl, rfl⟩, ?_, ?_, ?_, ?_⟩
  · norm_num [calculate_enhanced_financials]
  · norm_num [calculate_enhanced_financials]
  · norm_num [calculate_enhanced_financials]
  · norm_num [calculate_enhanced_financials]

/-- C2: `calculate_comprehensive_risk` returns an overall score equal to the
product of the five table multipliers (with the tables exactly as claimed) and
the continuous volume factor max(0.7, 1.2 − volume/5000); at
backbone="Panel", positioning="First-line", region="National",
reporting="Full Report", specialty="Oncology", volume=1000 the overall score is
0.704 and the Denial Risk component is 0.4224. -/
theorem computeRiskScore_overall :
    (∀ (b p r rep sp : String) (v : ℤ),
      (calculate_comprehensive_risk b p r rep sp v).overall =
        dictGet backbone_risk b 1.0 * dictGet positioning_risk p 1.0 *
        dictGet region_risk r 1.0 * dictGet reporting_risk rep 1.0 *
        dictGet specialty_risk sp 1.0 * max 0.7 (1.2 - (v : ℚ) / 5000)) ∧
    backbone_risk = [("Panel", 0.8), ("Exome", 1.0), ("Genome", 1.2)] ∧
    positioning_risk = [("First-line", 1.1), ("Reflex", 0.9), ("Confirmatory", 0.7)] ∧
    region_risk = [("National", 1.0), ("Northeast", 0.9), ("South", 1.2),
      ("Midwest", 1.0), ("West", 1.1)] ∧
    reporting_risk = [("Full Report", 1.0), ("Carve-out Panels", 0.9)] ∧
    specialty_risk = [("Oncology", 0.8), ("Cardiology", 1.0), ("Neurology", 1.1),
      ("Rare Disease", 1.3), ("Prenatal", 0.9)] ∧
    (calculate_comprehensive_risk "Panel" "First-line" "National" "Full Report"
      "Oncology" 1000).overall = 0.704 ∧
    (calculate_comprehensive_risk "Panel" "First-line" "National" "Full Report"
      "Oncology" 1000).denialRisk = 0.4224 := by
  refine ⟨fun b p r rep sp v => rfl, rfl, rfl, rfl, rfl, rfl, ?_, ?_⟩
  · norm_num [calculate_comprehensive_risk, base_score, dictGet, backbone_risk,
      positioning_risk, region_risk, reporting_risk, specialty_risk, volume_risk]
  · norm_num [calculate_comprehensive_risk, base_score, dictGet, backbone_risk,
      positioning_risk, region_risk, reporting_risk, specialty_risk, volume_risk]

/-- C3 counterexample: at costPerSample=1000, reimbursement=500, volume=100,
totalLossRate=0 the net profit is non-positive and the break-even value
computed on line 460 is the `np.inf` sentinel — an infinite value, so the
claim that the "not profitable" sentinel "is not an infinite or NaN value" is
false of the code as written. -/
theorem breakeven_inf_counterexample :
    (calculate_enhanced_financials 1000 500 100 0).net_profit ≤ 0 ∧
    breakeven_volume (calculate_enhanced_financials 1000 500 100 0) = BEVolume.inf := by
  constructor
  · norm_num [calculate_enhanced_financials]
  · norm_num [breakeven_volume, calculate_enhanced_financials]

/-- C3 (amended): the engine never raises a division fault: costPerSample = 0
forces roi = 0, effectiveReimbursement = 0 forces margin = 0; when
netProfit > 0 the break-even volume equals annualCosts / netProfit; when
netProfit ≤ 0 the break-even value is the `np.inf` sentinel — distinguishable
from every finite value and detected by the explicit `!= np.inf` flag that
selects the "not profitable" error path — and the JSON report exports the
`None` sentinel instead; no exception is involved anywhere. -/
theorem guarded_division_amended (cost reimb : ℚ) (volume : ℤ) (loss : ℚ) :
    (cost = 0 → (calculate_enhanced_financials cost reimb volume loss).roi = 0) ∧
    ((calculate_enhanced_financials cost reimb volume loss).effective_reimbursement = 0 →
      (calculate_enhanced_financials cost reimb volume loss).margin = 0) ∧
    (0 < (calculate_enhanced_financials cost reimb volume loss).net_profit →
      breakeven_volume (calculate_enhanced_financials cost reimb volume loss) =
        BEVolume.val ((calculate_enhanced_financials cost reimb volume loss).annual_costs /
          (calculate_enhanced_financials cost reimb volume loss).net_profit)) ∧
    ((calculate_enhanced_financials cost reimb volume loss).net_profit ≤ 0 →
      breakeven_volume (calculate_enhanced_financials cost reimb volume loss) =
        BEVolume.inf ∧
      report_breakeven (calculate_enhanced_financials cost reimb volume loss) = none) ∧
    (breakeven_profitable_flag (calculate_enhanced_financials cost reimb volume loss)
        = false ↔
      breakeven_volume (calculate_enhanced_financials cost reimb volume loss)
        = BEVolume.inf) ∧
    (∀ q : ℚ, BEVolume.val q ≠ BEVolume.inf) := by
  refine ⟨?_, ?_, ?_, ?_, ?_, fun q h => by cases h⟩
  · intro h
    simp only [calculate_enhanced_financials, h]
    norm_num
  · intro h
    simp only [calculate_enhanced_financials] at h ⊢
    rw [h]
    norm_num
  · intro h
    simp only [breakeven_volume, if_pos h]
  · intro h
    have h' : ¬ 0 < (calculate_enhanced_financials cost reimb volume loss).net_profit :=
      not_lt.mpr h
    exact ⟨by simp only [breakeven_volume, if_neg h'],
      by simp only [report_breakeven, if_neg h']⟩
  · simp only [breakeven_profitable_flag]
    constructor
    · intro h
      by_contra hne
      simp [hne] at h
    · intro h
      simp [h]

/-- Witness for the amended C3: the roi guard at cost 0, the margin guard at
reimbursement 0, the finite break-even at a profitable input, and the
infinity/None sentinels at an unprofitable input. -/
theorem guarded_division_amended_witness :
    (calculate_enhanced_financials 0 1000 10 1).roi = 0 ∧
    (calculate_enhanced_financials 5 0 10 0).margin = 0 ∧
    breakeven_volume (calculate_enhanced_financials 728 1000 1000 0.15) =
      BEVolume.val ((calculate_enhanced_financials 728 1000 1000 0.15).annual_costs /
        (calculate_enhanced_financials 728 1000 1000 0.15).net_profit) ∧
    (breakeven_volume (calculate_enhanced_financials 1000 500 100 0) = BEVolume.inf ∧
      report_breakeven (calculate_enhanced_financials 1000 500 100 0) = none) := by
  refine ⟨(guarded_division_amended 0 1000 10 1).1 rfl,
    (guarded_division_amended 5 0 10 0).2.1 (by norm_num [calculate_enhanced_financials]),
    (guarded_division_amended 728 1000 1000 0.15).2.2.1
      (by norm_num [calculate_enhanced_financials]),
    (guarded_division_amended 1000 500 100 0).2.2.2.1
      (by norm_num [calculate_enhanced_financials])⟩

/-- C4: the total loss rate fed into the financial calculation equals
baseDenialRate × (1 − priorAuthRate × 0.4) + badDebtRate with
baseDenialRate = overallScore × 0.15, for every profile. -/
theorem total_loss_rate_formula (b p r rep sp : String) (v : ℤ)
    (prior_auth_rate bad_debt_rate : ℚ) :
    total_loss_rate b p r rep sp v prior_auth_rate bad_debt_rate =
      ((calculate_comprehensive_risk b p r rep sp v).overall * 0.15)
        * (1 - prior_auth_rate * 0.4) + bad_debt_rate := rfl

/-- C5: for every profile the component scores are bounded — Prior
Authorization Risk, Denial Risk and Time to Payment Risk lie in [0,1] and are
the claimed clamped scalings of the overall score, and the Appeal Success Rate
is max(0.3, 1 − overall×0.4) and lies in [0.3, 1]. -/
theorem component_score_bounds (b p r rep sp : String) (v : ℤ) :
    (0 ≤ (calculate_comprehensive_risk b p r rep sp v).priorAuthRisk ∧
      (calculate_comprehensive_risk b p r rep sp v).priorAuthRisk ≤ 1 ∧
      (calculate_comprehensive_risk b p r rep sp v).priorAuthRisk =
        min ((calculate_comprehensive_risk b p r rep sp v).overall * 0.8) 1.0) ∧
    (0 ≤ (calculate_comprehensive_risk b p r rep sp v).denialRisk ∧
      (calculate_comprehensive_risk b p r rep sp v).denialRisk ≤ 1 ∧
      (calculate_comprehensive_risk b p r rep sp v).denialRisk =
        min ((calculate_comprehensive_risk b p r rep sp v).overall * 0.6) 1.0) ∧
    (0 ≤ (calculate_comprehensive_risk b p r rep sp v).timeToPaymentRisk ∧
      (calculate_comprehensive_risk b p r rep sp v).timeToPaymentRisk ≤ 1 ∧
      (calculate_comprehensive_risk b p r rep sp v).timeToPaymentRisk =
        min ((calculate_comprehensive_risk b p r rep sp v).overall * 0.7) 1.0) ∧
    (0.3 ≤ (calculate_comprehensive_risk b p r rep sp v).appealSuccessRate ∧
      (calculate_comprehensive_risk b p r rep sp v).appealSuccessRate ≤ 1 ∧
      (calculate_comprehensive_risk b p r rep sp v).appealSuccessRate =
        max 0.3 (1.0 - (calculate_comprehensive_risk b p r rep sp v).overall * 0.4)) := by
  have hs : 0 < base_score b p r rep sp v := base_score_pos b p r rep sp v
  simp only [calculate_comprehensive_risk]
  refine ⟨⟨?_, ?_, by trivial⟩, ⟨?_, ?_, by trivial⟩, ⟨?_, ?_, by trivial⟩,
    ⟨?_, ?_, by trivial⟩⟩
  · exact le_min (by nlinarith) (by norm_num)
  · exact le_trans (min_le_right _ _) (by norm_num)
  · exact le_min (by nlinarith) (by norm_num)
  · exact le_trans (min_le_right _ _) (by norm_num)
  · exact le_min (by nlinarith) (by norm_num)
  · exact le_trans (min_le_right _ _) (by norm_num)
  · exact le_trans (by norm_num) (le_max_left _ _)
  · exact max_le (by norm_num) (by nlinarith)

/-- C6: the overall risk score is monotonically non-increasing in volume: for
two profiles that differ only in annual volume, the larger volume never yields
a larger overall score. -/
theorem overall_score_volume_antitone (b p r rep sp : String) (v1 v2 : ℤ)
    (h : v1 ≤ v2) :
    (calculate_comprehensive_risk b p r rep sp v2).overall ≤
      (calculate_comprehensive_risk b p r rep sp v1).overall := by
  have hC : 0 ≤ dictGet backbone_risk b 1.0 * dictGet positioning_risk p 1.0 *
      dictGet region_risk r 1.0 * dictGet reporting_risk rep 1.0 *
      dictGet specialty_risk sp 1.0 := by
    have hA : (0 : ℚ) ≤ dictGet backbone_risk b 1.0 :=
      le_trans (by norm_num) (backbone_mult_bounds b).1
    have hB : (0 : ℚ) ≤ dictGet positioning_risk p 1.0 :=
      le_trans (by norm_num) (positioning_mult_bounds p).1
    have hCr : (0 : ℚ) ≤ dictGet region_risk r 1.0 :=
      le_trans (by norm_num) (region_mult_bounds r).1
    have hD : (0 : ℚ) ≤ dictGet reporting_risk rep 1.0 :=
      le_trans (by norm_num) (reporting_mult_bounds rep).1
    have hE : (0 : ℚ) ≤ dictGet specialty_risk sp 1.0 :=
      le_trans (by norm_num) (specialty_mult_bounds sp).1
    exact mul_nonneg (mul_nonneg (mul_nonneg (mul_nonneg hA hB) hCr) hD) hE
  have hvr : volume_risk v2 ≤ volume_risk v1 := by
    unfold volume_risk
    have hq : (v1 : ℚ) ≤ (v2 : ℚ) := by exact_mod_cast h
    have : 1.2 - (v2 : ℚ) / 5000 ≤ 1.2 - (v1 : ℚ) / 5000 := by linarith
    exact max_le_max le_rfl this
  show base_score b p r rep sp v2 ≤ base_score b p r rep sp v1
  unfold base_score
  exact mul_le_mul_of_nonneg_left hvr hC

/-- Witness for C6 at a concrete pair of volumes. -/
theorem overall_score_volume_antitone_witness :
    (1000 : ℤ) ≤ 2000 ∧
    (calculate_comprehensive_risk "Panel" "First-line" "National" "Full Report"
      "Oncology" 2000).overall ≤
    (calculate_comprehensive_risk "Panel" "First-line" "National" "Full Report"
      "Oncology" 1000).overall :=
  ⟨by norm_num,
   overall_score_volume_antitone "Panel" "First-line" "National" "Full Report"
     "Oncology" 1000 2000 (by norm_num)⟩

/-- C8 (spec-modelled): the classifier maps every panel to exactly one code:
a "Liquid Biopsy" panel always gets the fixed ctDNA code regardless of gene
count; every other category classifies by the gene-count ladder (count > 50
high-complexity, 5 < count ≤ 50 mid-complexity, count ≤ 5 low-complexity);
a "Germline" panel with 150 genes gets the high-complexity code and never the
liquid-biopsy override. -/
theorem cpt_classifier_rules (category : String) (count : ℕ) :
    classify_cpt "Liquid Biopsy" count = CPTCode.ctDNA ∧
    (category ≠ "Liquid Biopsy" → classify_cpt category count = cpt_ladder count) ∧
    (count > 50 → cpt_ladder count = CPTCode.highComplexity) ∧
    (5 < count → count ≤ 50 → cpt_ladder count = CPTCode.midComplexity) ∧
    (count ≤ 5 → cpt_ladder count = CPTCode.lowComplexity) ∧
    classify_cpt "Germline" 150 = CPTCode.highComplexity := by
  refine ⟨?_, ?_, ?_, ?_, ?_, ?_⟩
  · rw [classify_cpt, if_neg (by decide), if_pos rfl]
  · intro h
    rw [classify_cpt]
    by_cases hg : category = "Germline"
    · rw [if_pos hg]
    · rw [if_neg hg, if_neg h]
  · intro h
    rw [cpt_ladder, if_pos h]
  · intro h1 h2
    rw [cpt_ladder, if_neg (by omega), if_pos h1]
  · intro h
    rw [cpt_ladder, if_neg (by omega), if_neg (by omega)]
  · rw [classify_cpt, if_pos rfl, cpt_ladder, if_pos (by norm_num)]

/-- Witness for C8: a generic-category panel with 45 genes follows the ladder
to the mid-complexity code, and the ladder's three branches at 150, 45 and 3
genes. -/
theorem cpt_classifier_rules_witness :
    classify_cpt "Solid Tumor" 45 = cpt_ladder 45 ∧
    cpt_ladder 150 = CPTCode.highComplexity ∧
    cpt_ladder 45 = CPTCode.midComplexity ∧
    cpt_ladder 3 = CPTCode.lowComplexity :=
  ⟨(cpt_classifier_rules "Solid Tumor" 45).2.1 (by decide),
   (cpt_classifier_rules "Solid Tumor" 150).2.2.1 (by norm_num),
   (cpt_classifier_rules "Solid Tumor" 45).2.2.2.1 (by norm_num) (by norm_num),
   (cpt_classifier_rules "Solid Tumor" 3).2.2.2.2.1 (by norm_num)⟩

/-- C9: the risk tables recognize exactly the UI strings as keys, and any
other string for a factor contributes the neutral multiplier 1.0 — in
particular the spec token spellings "FirstLine", "CarveOut" and "RareDisease"
are unrecognized and contribute 1.0, and an unrecognized backbone leaves the
overall score equal to 1.0 times the remaining factors, without error. -/
theorem unrecognized_factors_neutral :
    backboneKeys = ["Panel", "Exome", "Genome"] ∧
    positioningKeys = ["First-line", "Reflex", "Confirmatory"] ∧
    regionKeys = ["National", "Northeast", "South", "Midwest", "West"] ∧
    reportingKeys = ["Full Report", "Carve-out Panels"] ∧
    specialtyKeys = ["Oncology", "Cardiology", "Neurology", "Rare Disease",
      "Prenatal"] ∧
    (∀ s, s ∉ backboneKeys → dictGet backbone_risk s 1.0 = 1.0) ∧
    (∀ s, s ∉ positioningKeys → dictGet positioning_risk s 1.0 = 1.0) ∧
    (∀ s, s ∉ regionKeys → dictGet region_risk s 1.0 = 1.0) ∧
    (∀ s, s ∉ reportingKeys → dictGet reporting_risk s 1.0 = 1.0) ∧
    (∀ s, s ∉ specialtyKeys → dictGet specialty_risk s 1.0 = 1.0) ∧
    dictGet positioning_risk "FirstLine" 1.0 = 1.0 ∧
    dictGet reporting_risk "CarveOut" 1.0 = 1.0 ∧
    dictGet specialty_risk "RareDisease" 1.0 = 1.0 ∧
    (∀ (b p r rep sp : String) (v : ℤ), b ∉ backboneKeys →
      (calculate_comprehensive_risk b p r rep sp v).overall =
        1.0 * (dictGet positioning_risk p 1.0 * dictGet region_risk r 1.0 *
          dictGet reporting_risk rep 1.0 * dictGet specialty_risk sp 1.0 *
          volume_risk v)) := by
  refine ⟨rfl, rfl, rfl, rfl, rfl,
    fun s hs => dictGet_not_mem _ _ _ hs,
    fun s hs => dictGet_not_mem _ _ _ hs,
    fun s hs => dictGet_not_mem _ _ _ hs,
    fun s hs => dictGet_not_mem _ _ _ hs,
    fun s hs => dictGet_not_mem _ _ _ hs, ?_, ?_, ?_, ?_⟩
  · simp only [dictGet, positioning_risk, String.reduceEq, if_false]
  · simp only [dictGet, reporting_risk, String.reduceEq, if_false]
  · simp only [dictGet, specialty_risk, String.reduceEq, if_false]
  · intro b p r rep sp v hb
    have hA : dictGet backbone_risk b 1.0 = 1.0 := dictGet_not_mem _ _ _ hb
    show base_score b p r rep sp v = _
    unfold base_score
    rw [hA]
    ring

/-- Witness for C9: the spec spelling "FirstLine" is not a recognized
positioning key and yields the neutral multiplier, and an unrecognized
backbone contributes 1.0 to a concrete overall score. -/
theorem unrecognized_factors_neutral_witness :
    dictGet positioning_risk "FirstLine" 1.0 = 1.0 ∧
    dictGet backbone_risk "Backbone" 1.0 = 1.0 ∧
    (calculate_comprehensive_risk "Backbone" "First-line" "National" "Full Report"
      "Oncology" 1000).overall =
      1.0 * (dictGet positioning_risk "First-line" 1.0 *
        dictGet region_risk "National" 1.0 * dictGet reporting_risk "Full Report" 1.0 *
        dictGet specialty_risk "Oncology" 1.0 * volume_risk 1000) := by
  obtain ⟨-, -, -, -, -, hb, hp, -, -, -, -, -, -, hlast⟩ := unrecognized_factors_neutral
  exact ⟨hp "FirstLine" (by decide), hb "Backbone" (by decide),
    hlast "Backbone" "First-line" "National" "Full Report" "Oncology" 1000 (by decide)⟩

/-- C10: for every input (arbitrary factor strings, non-negative volume) the
overall score is hard-bounded: 0.254016 ≤ overall ≤ 2.47104, and it is always
strictly positive. -/
theorem overall_score_hard_bounds (b p r rep sp : String) (v : ℤ) (hv : 0 ≤ v) :
    0.254016 ≤ (calculate_comprehensive_risk b p r rep sp v).overall ∧
    (calculate_comprehensive_risk b p r rep sp v).overall ≤ 2.47104 ∧
    0 < (calculate_comprehensive_risk b p r rep sp v).overall := by
  have hA := backbone_mult_bounds b
  have hB := positioning_mult_bounds p
  have hC := region_mult_bounds r
  have hD := reporting_mult_bounds rep
  have hE := specialty_mult_bounds sp
  have hF1 := volume_risk_lb v
  have hF2 := volume_risk_ub v hv
  have hAB := mul_bounds (by norm_num) (by norm_num) hA.1 hA.2 hB.1 hB.2
  have hABC := mul_bounds (by norm_num) (by norm_num) hAB.1 hAB.2 hC.1 hC.2
  have hABCD := mul_bounds (by norm_num) (by norm_num) hABC.1 hABC.2 hD.1 hD.2
  have hABCDE := mul_bounds (by norm_num) (by norm_num) hABCD.1 hABCD.2 hE.1 hE.2
  have hAll := mul_bounds (by norm_num) (by norm_num) hABCDE.1 hABCDE.2 hF1 hF2
  refine ⟨?_, ?_, base_score_pos b p r rep sp v⟩
  · exact le_trans (by norm_num) hAll.1
  · exact le_trans hAll.2 (by norm_num)

/-- Witness for C10 at unrecognized factor strings and volume 0. -/
theorem overall_score_hard_bounds_witness :
    0.254016 ≤ (calculate_comprehensive_risk "Transcriptome" "Screening" "Europe"
      "Summary" "Pediatrics" 0).overall ∧
    (calculate_comprehensive_risk "Transcriptome" "Screening" "Europe"
      "Summary" "Pediatrics" 0).overall ≤ 2.47104 ∧
    0 < (calculate_comprehensive_risk "Transcriptome" "Screening" "Europe"
      "Summary" "Pediatrics" 0).overall :=
  overall_score_hard_bounds "Transcriptome" "Screening" "Europe" "Summary"
    "Pediatrics" 0 (by norm_num)

end NGS
